import Mathlib

set_option maxHeartbeats 1000000

/-!
Shallow embedding of the cobalt API gateway (src/core/api.js): the
signed-stream route, the loopback-only internal stream route, the JSON
body-parsing middleware for the extraction route, the two rate limiters,
and the caller-key derivation.  External collaborators (verifyStream,
the stream proxy, the internal stream registry) are parameters of the
handlers, so that theorems can quantify over their behaviour and record
whether they were invoked.
-/

namespace Cobalt

/-- JS String() applied to a possibly-absent query parameter or header:
an absent value is the undefined value, which String() renders as the
nine-character text undefined; a present string is returned unchanged. -/
def jsString (o : Option String) : String := o.getD "undefined"

/-- JS truthiness of a possibly-absent string value: undefined is falsy,
and a present string is truthy exactly when it is nonempty. -/
def truthyOpt (o : Option String) : Bool :=
  match o with
  | none => false
  | some s => !s.isEmpty

/-- JS String.prototype.endsWith: the receiver ends with the given
suffix, as a check on the character sequences. -/
def jsEndsWith (s suffix : String) : Bool :=
  suffix.data.isSuffixOf s.data

/-- The object handed back by the verification collaborator, as the
handler observes it: a service field (the empty string is JS-falsy,
standing for a missing or empty service) and an HTTP status code. -/
structure StreamInfo where
  service : String
  status : Nat
  deriving DecidableEq, Repr

/-- Possible behaviours of the verifyStream collaborator on a call:
return an object, return a nullish value, or throw. -/
inductive VerifyResult where
  | value (info : StreamInfo)
  | nullish
  | raise
  deriving DecidableEq, Repr

/-- JSON bodies the gateway itself constructs on the routes we model. -/
inductive Body where
  | continueStatus
  | errorText (t : String)
  | rateLimit
  deriving DecidableEq, Repr

/-- The response-side outcome of a handler: a bare status (sendStatus),
a status with a JSON body, a destroyed connection, or a successful
hand-off of the response stream to the proxy collaborator. -/
inductive Response where
  | sendStatus (code : Nat)
  | json (code : Nat) (body : Body)
  | destroyed
  | streamed (info : StreamInfo)
  deriving DecidableEq, Repr

/-- Query parameters of a GET /api/stream request; each field is absent
or a string, as express presents scalar query values. -/
structure StreamQuery where
  id : Option String
  exp : Option String
  sig : Option String
  sec : Option String
  iv : Option String
  p : Option String

/-- The shape gate of the /api/stream handler: checkQueries (JS
truthiness of the five coerced fields) and the two length checks,
combined exactly as in the source. -/
def shapeOk (q : StreamQuery) : Bool :=
  let id := jsString q.id
  let exp := jsString q.exp
  let sig := jsString q.sig
  let sec := jsString q.sec
  let iv := jsString q.iv
  let checkQueries := !id.isEmpty && !exp.isEmpty && !sig.isEmpty &&
    !sec.isEmpty && !iv.isEmpty
  let checkBaseLength := id.length == 21 && exp.length == 13
  let checkSafeLength := sig.length == 43 && sec.length == 43 && iv.length == 22
  checkQueries && checkBaseLength && checkSafeLength

/-- The external collaborators of the stream routes: the cryptographic
verification primitive (called with id, sig, exp, sec, iv in the source
order) and the stream proxy, of which the handler only observes whether
the call throws. -/
structure Collaborators where
  verify : String → String → String → String → String → VerifyResult
  streamThrows : StreamInfo → Bool

/-- What a run of the /api/stream handler produced: the response, and
whether each collaborator was invoked. -/
structure Trace where
  response : Response
  verifyCalled : Bool
  streamCalled : Bool
  deriving DecidableEq, Repr

/-- The GET /api/stream handler.  Mirrors the source: coerce the five
query fields with String(), apply the shape gate, short-circuit on a
truthy probe parameter p, otherwise call verifyStream inside try/catch;
a result without a truthy service field has its status forwarded by
sendStatus; a nullish result makes the status access throw, which the
catch turns into a destroyed connection, as does any throw from
verifyStream or from the stream proxy. -/
def streamHandler (c : Collaborators) (q : StreamQuery) : Trace :=
  let id := jsString q.id
  let exp := jsString q.exp
  let sig := jsString q.sig
  let sec := jsString q.sec
  let iv := jsString q.iv
  if shapeOk q then
    if truthyOpt q.p then
      ⟨Response.json 200 Body.continueStatus, false, false⟩
    else
      match c.verify id sig exp sec iv with
      | VerifyResult.raise => ⟨Response.destroyed, true, false⟩
      | VerifyResult.nullish => ⟨Response.destroyed, true, false⟩
      | VerifyResult.value info =>
        if info.service.isEmpty then
          ⟨Response.sendStatus info.status, true, false⟩
        else if c.streamThrows info then
          ⟨Response.destroyed, true, true⟩
        else
          ⟨Response.streamed info, true, true⟩
  else
    ⟨Response.sendStatus 400, false, false⟩

/-- What a run of the GET /api/istream handler produced: the response
and whether the internal registry was consulted. -/
structure IstreamTrace where
  response : Response
  lookupCalled : Bool
  deriving DecidableEq, Repr

/-- The GET /api/istream handler.  Mirrors the source: a caller whose
resolved address does not end with 127.0.0.1 gets 403; then the
String()-coerced id must have length 21 or the handler sends 400; then
the internal registry is consulted, a missing descriptor yields 404,
and otherwise the descriptor is handed to the stream proxy, whose
throw the catch turns into a destroyed connection. -/
def istreamHandler (reg : String → Option StreamInfo)
    (streamThrows : StreamInfo → Bool) (ip : String)
    (idq : Option String) : IstreamTrace :=
  if !(jsEndsWith ip "127.0.0.1") then
    ⟨Response.sendStatus 403, false⟩
  else if (jsString idq).length != 21 then
    ⟨Response.sendStatus 400, false⟩
  else
    match reg (jsString idq) with
    | none => ⟨Response.sendStatus 404, true⟩
    | some info =>
      if streamThrows info then ⟨Response.destroyed, true⟩
      else ⟨Response.streamed info, true⟩

/-- The express.json verify callback together with the error-translating
middleware on /api/json, as one function from the Accept header, the raw
body length in bytes and whether the body parses as JSON, to the pair of
an optional rejection text (the gateway answers 400 with that text when
present) and whether JSON parsing was attempted.  Mirrors the source:
the verify callback throws unless String() of the Accept header is
exactly application/json; with a matching header it throws when the
buffer exceeds 720 bytes before parsing, and otherwise parses; the
error middleware answers invalid accept header on a header mismatch and
invalid json body on any other error. -/
def jsonParseStage (accept : Option String) (bodyLen : Nat)
    (bodyParses : Bool) : Option String × Bool :=
  if jsString accept == "application/json" then
    if bodyLen > 720 then
      (some "invalid json body", false)
    else if bodyParses then
      (none, true)
    else
      (some "invalid json body", true)
  else
    (some "invalid accept header", false)

end Cobalt

namespace Cobalt

/-- Modelled from the spec: generateHmac lives in
src/modules/sub/crypto.js, which is not part of the sources here.  The
spec contract of the IdentityHasher is that the derived key is
deterministic for a fixed (address, secret) pair and that different
secrets produce different keys for the same address; we model the keyed
MAC as the separator-joined pairing of secret and message, which is
deterministic and distinguishes secrets. -/
def generateHmac (data salt : String) : String := salt ++ ":" ++ data

/-- Modelled from the spec: getIP lives in
src/modules/processing/request.js, which is not part of the sources
here; it extracts the caller's resolved address from the request, so a
request is modelled as carrying that address. -/
structure Req where
  ip : String

/-- Modelled from the spec: getIP returns the caller's resolved
address. -/
def getIP (r : Req) : String := r.ip

/-- The keyGenerator of both limiters in the source: the keyed MAC of
the caller's address under the process-lifetime secret ipSalt. -/
def keyGenerator (salt : String) (r : Req) : String :=
  generateHmac (getIP r) salt

/-- Configuration of one rate limiter instance: window length in
milliseconds and the maximum number of requests per window. -/
structure LimiterConfig where
  windowMs : Nat
  max : Nat
  deriving DecidableEq, Repr

/-- The extraction-route limiter configuration from the source:
60000 ms window, 20 requests. -/
def apiLimiterCfg : LimiterConfig := ⟨60000, 20⟩

/-- The stream-route limiter configuration from the source: 60000 ms
window, 25 requests. -/
def apiLimiterStreamCfg : LimiterConfig := ⟨60000, 25⟩

/-- The extraction-route limiter rejection from the source: status 429
with the structured rate-limit JSON body. -/
def apiLimiterRejection : Response := Response.json 429 Body.rateLimit

/-- The stream-route limiter rejection from the source: bare status
429. -/
def apiLimiterStreamRejection : Response := Response.sendStatus 429

/-- Modelled from the spec: the fixed-window store of the
express-rate-limit library is not part of the sources here.  A bucket
is the pair of the window-start timestamp and the hit count; a hit
inside the window increments the count and is allowed while the count
stays at or under max; a hit after the window elapsed (or on a fresh
key) resets the bucket.  Returns the new bucket and whether the
request is allowed through to the route handler. -/
def bucketHit (cfg : LimiterConfig) (b : Option (Nat × Nat)) (now : Nat) :
    Option (Nat × Nat) × Bool :=
  match b with
  | none => (some (now, 1), decide (1 ≤ cfg.max))
  | some (ws, c) =>
    if now - ws < cfg.windowMs then
      (some (ws, c + 1), decide (c + 1 ≤ cfg.max))
    else
      (some (now, 1), decide (1 ≤ cfg.max))

/-- Run a sequence of hits (request arrival times) against one bucket,
returning the final bucket and the per-request allow decisions. -/
def bucketRun (cfg : LimiterConfig) (b : Option (Nat × Nat)) :
    List Nat → Option (Nat × Nat) × List Bool
  | [] => (b, [])
  | t :: ts =>
    let step := bucketHit cfg b t
    let rest := bucketRun cfg step.1 ts
    (rest.1, step.2 :: rest.2)

/-- Run a sequence of requests through a limiter-guarded route: an
allowed request reaches the handler and gets its response, a rejected
request gets the limiter rejection and never reaches the handler.
Each element of the result is the response paired with whether the
route handler was reached. -/
def runLimitedRoute (cfg : LimiterConfig) (rejection handler : Response)
    (b : Option (Nat × Nat)) (times : List Nat) : List (Response × Bool) :=
  (bucketRun cfg b times).2.map fun ok =>
    if ok then (handler, true) else (rejection, false)

/-- The per-caller state of the two limiter instances mounted in the
source: the bucket of the extraction-route limiter and the bucket of
the stream-route limiter, which are distinct objects. -/
structure GatewayLimiters where
  json : Option (Nat × Nat)
  stream : Option (Nat × Nat)
  deriving DecidableEq, Repr

/-- A hit on the extraction-route limiter updates only its own
bucket. -/
def gatewayHitJson (g : GatewayLimiters) (now : Nat) :
    GatewayLimiters × Bool :=
  let step := bucketHit apiLimiterCfg g.json now
  (⟨step.1, g.stream⟩, step.2)

/-- A hit on the stream-route limiter updates only its own bucket. -/
def gatewayHitStream (g : GatewayLimiters) (now : Nat) :
    GatewayLimiters × Bool :=
  let step := bucketHit apiLimiterStreamCfg g.stream now
  (⟨g.json, step.1⟩, step.2)

/-- A query field that is absent, or present with a length other than
the required one. -/
def absentOrWrongLength (o : Option String) (n : Nat) : Prop :=
  o = none ∨ ∃ s, o = some s ∧ s.length ≠ n

/-- A sample 21-character identifier. -/
def idSample : String := "abcdefghijklmnopqrstu"

/-- A sample 13-character expiry string. -/
def expSample : String := "1700000000000"

/-- A sample 43-character signature string. -/
def sigSample : String := "ABCDEFGHIJKLMNOPQRSTUVWXYZabcdefghijklmnopq"

/-- A sample 22-character initialization-value string. -/
def ivSample : String := "0123456789012345678901"

/-- A well-shaped stream query without a probe flag. -/
def qGood : StreamQuery :=
  ⟨some idSample, some expSample, some sigSample, some sigSample,
    some ivSample, none⟩

/-- A well-shaped stream query carrying a truthy probe flag. -/
def qProbe : StreamQuery :=
  ⟨some idSample, some expSample, some sigSample, some sigSample,
    some ivSample, some "1"⟩

/-- A collaborator pair whose verification returns a nullish value and
whose stream proxy never throws. -/
def collabNull : Collaborators :=
  ⟨fun _ _ _ _ _ => VerifyResult.nullish, fun _ => false⟩

/-- A collaborator pair whose verification returns a failure object with
an empty service field and status 403. -/
def collabReject : Collaborators :=
  ⟨fun _ _ _ _ _ => VerifyResult.value ⟨"", 403⟩, fun _ => false⟩

/-- A collaborator pair whose verification throws. -/
def collabRaise : Collaborators :=
  ⟨fun _ _ _ _ _ => VerifyResult.raise, fun _ => false⟩

/-- A registry holding exactly the sample identifier. -/
def regSample : String → Option StreamInfo :=
  fun s => if s == idSample then some ⟨"youtube", 200⟩ else none

theorem absentOrWrongLength_iff (o : Option String) (n : Nat)
    (h9 : (9 : Nat) ≠ n) :
    absentOrWrongLength o n ↔ (jsString o).length ≠ n := by
  cases o with
  | none =>
    have hu : (jsString (none : Option String)).length = 9 := rfl
    constructor
    · intro _ hc
      exact h9 (hu ▸ hc)
    · intro _
      exact Or.inl rfl
  | some s =>
    simp [absentOrWrongLength, jsString]

theorem shapeOk_lengths {q : StreamQuery} (h : shapeOk q = true) :
    (jsString q.id).length = 21 ∧ (jsString q.exp).length = 13 ∧
    (jsString q.sig).length = 43 ∧ (jsString q.sec).length = 43 ∧
    (jsString q.iv).length = 22 := by
  simp only [shapeOk, Bool.and_eq_true, beq_iff_eq] at h
  tauto

/-- C1: a GET /api/stream request in which one of the five query fields
id, exp, sig, sec, iv is absent or does not have exactly its required
length (21, 13, 43, 43, 22) is answered with bare status 400, and
neither the verification primitive nor the stream proxy is invoked. -/
theorem stream_shape_gate (c : Collaborators) (q : StreamQuery)
    (h : absentOrWrongLength q.id 21 ∨ absentOrWrongLength q.exp 13 ∨
      absentOrWrongLength q.sig 43 ∨ absentOrWrongLength q.sec 43 ∨
      absentOrWrongLength q.iv 22) :
    streamHandler c q = ⟨Response.sendStatus 400, false, false⟩ := by
  have hs : shapeOk q = false := by
    cases hsq : shapeOk q
    · rfl
    · exfalso
      have hl := shapeOk_lengths hsq
      rcases h with h | h | h | h | h
      · exact ((absentOrWrongLength_iff _ 21 (by decide)).mp h) hl.1
      · exact ((absentOrWrongLength_iff _ 13 (by decide)).mp h) hl.2.1
      · exact ((absentOrWrongLength_iff _ 43 (by decide)).mp h) hl.2.2.1
      · exact ((absentOrWrongLength_iff _ 43 (by decide)).mp h) hl.2.2.2.1
      · exact ((absentOrWrongLength_iff _ 22 (by decide)).mp h) hl.2.2.2.2
  simp [streamHandler, hs]

/-- Witness for C1: an all-absent query is rejected with 400 and no
collaborator call. -/
theorem stream_shape_gate_witness :
    streamHandler collabNull ⟨none, none, none, none, none, none⟩ =
      ⟨Response.sendStatus 400, false, false⟩ :=
  stream_shape_gate collabNull ⟨none, none, none, none, none, none⟩
    (Or.inl (Or.inl rfl))

/-- C2: a GET /api/stream request that passes the shape gate and
carries a truthy probe parameter p is answered 200 with the continue
status body, invoking neither the verification primitive nor the
stream proxy. -/
theorem stream_probe_short_circuit (c : Collaborators) (q : StreamQuery)
    (hs : shapeOk q = true) (hp : truthyOpt q.p = true) :
    streamHandler c q = ⟨Response.json 200 Body.continueStatus, false, false⟩ := by
  simp [streamHandler, hs, hp]

/-- Witness for C2: the sample well-shaped probe query short-circuits. -/
theorem stream_probe_short_circuit_witness :
    streamHandler collabNull qProbe =
      ⟨Response.json 200 Body.continueStatus, false, false⟩ :=
  stream_probe_short_circuit collabNull qProbe rfl rfl

/-- C7: a GET /api/stream request that passes the shape gate, is not a
probe, and whose verification returns an object without a truthy
service field, is answered with exactly the status carried by that
object (whatever it is), with no body and no call to the stream
proxy. -/
theorem stream_reject_forward (c : Collaborators) (q : StreamQuery)
    (info : StreamInfo) (hs : shapeOk q = true)
    (hp : truthyOpt q.p = false)
    (hv : c.verify (jsString q.id) (jsString q.sig) (jsString q.exp)
      (jsString q.sec) (jsString q.iv) = VerifyResult.value info)
    (hsvc : info.service.isEmpty = true) :
    streamHandler c q = ⟨Response.sendStatus info.status, true, false⟩ := by
  simp [streamHandler, hs, hp, hv, hsvc]

/-- Witness for C7: a rejecting verifier's 403 is forwarded as-is. -/
theorem stream_reject_forward_witness :
    streamHandler collabReject qGood =
      ⟨Response.sendStatus 403, true, false⟩ :=
  stream_reject_forward collabReject qGood ⟨"", 403⟩ rfl rfl rfl rfl

/-- C8: a GET /api/stream request that passes the shape gate and is not
a probe, on which the verification primitive throws, or verification
succeeds and the stream proxy throws, ends with the connection
destroyed; no status code or error body is sent. -/
theorem stream_exception_destroys (c : Collaborators) (q : StreamQuery)
    (hs : shapeOk q = true) (hp : truthyOpt q.p = false)
    (h : c.verify (jsString q.id) (jsString q.sig) (jsString q.exp)
        (jsString q.sec) (jsString q.iv) = VerifyResult.raise ∨
      ∃ info, c.verify (jsString q.id) (jsString q.sig) (jsString q.exp)
          (jsString q.sec) (jsString q.iv) = VerifyResult.value info ∧
        info.service.isEmpty = false ∧ c.streamThrows info = true) :
    (streamHandler c q).response = Response.destroyed := by
  rcases h with h | ⟨info, hv, hsvc, hst⟩
  · simp [streamHandler, hs, hp, h]
  · simp [streamHandler, hs, hp, hv, hsvc, hst]

/-- Witness for C8: a throwing verifier destroys the connection. -/
theorem stream_exception_destroys_witness :
    (streamHandler collabRaise qGood).response = Response.destroyed :=
  stream_exception_destroys collabRaise qGood rfl rfl (Or.inl rfl)

/-- C4: a GET /api/istream request from a caller whose resolved address
does not end with the loopback suffix is answered 403, for every value
of the id parameter, including identifiers present in the registry,
and the registry is never consulted. -/
theorem istream_forbidden (reg : String → Option StreamInfo)
    (st : StreamInfo → Bool) (ip : String) (idq : Option String)
    (h : jsEndsWith ip "127.0.0.1" = false) :
    istreamHandler reg st ip idq = ⟨Response.sendStatus 403, false⟩ := by
  simp [istreamHandler, h]

/-- Witness for C4: a non-loopback caller asking for an id that is in
the registry still gets 403 without a lookup. -/
theorem istream_forbidden_witness :
    istreamHandler regSample (fun _ => false) "10.0.0.1" (some idSample) =
      ⟨Response.sendStatus 403, false⟩ :=
  istream_forbidden regSample (fun _ => false) "10.0.0.1" (some idSample)
    (by decide)

/-- C10: a GET /api/istream request from a loopback caller whose
String()-coerced id parameter (an absent parameter coerces to the text
undefined) does not have length exactly 21 is answered 400, and the
internal stream registry is never consulted. -/
theorem istream_id_gate (reg : String → Option StreamInfo)
    (st : StreamInfo → Bool) (ip : String) (idq : Option String)
    (h1 : jsEndsWith ip "127.0.0.1" = true)
    (h2 : (jsString idq).length ≠ 21) :
    istreamHandler reg st ip idq = ⟨Response.sendStatus 400, false⟩ := by
  simp [istreamHandler, h1, h2]

/-- Witness for C10: an absent id from loopback yields 400 with no
lookup. -/
theorem istream_id_gate_witness :
    istreamHandler regSample (fun _ => false) "127.0.0.1" none =
      ⟨Response.sendStatus 400, false⟩ :=
  istream_id_gate regSample (fun _ => false) "127.0.0.1" none (by decide)
    (by decide)

/-- Counterexample to C3: the Accept header value
application/json; charset=utf-8 is NOT accepted by the body-parsing
stage; it is rejected with the invalid accept header message and the
body is never parsed, because the verify callback compares the header
with strict equality against application/json only (the regular
expression admitting the charset qualifier is applied to the
Content-Type header in the route handler, not to Accept). -/
theorem accept_charset_rejected :
    jsonParseStage (some "application/json; charset=utf-8") 2 true =
      (some "invalid accept header", false) := by
  decide

/-- C3 amended: an Accept header is acceptable exactly when its String()
coercion is the exact text application/json; every other value,
including application/json; charset=utf-8, is rejected at the
body-parsing stage with the invalid accept header message (distinct
from the malformed-body message) regardless of body content. -/
theorem accept_header_exact (accept : Option String) (bodyLen : Nat)
    (bodyParses : Bool) :
    ((jsonParseStage accept bodyLen bodyParses).1 =
        some "invalid accept header" ↔
      jsString accept ≠ "application/json") ∧
    (jsString accept ≠ "application/json" →
      jsonParseStage accept bodyLen bodyParses =
        (some "invalid accept header", false)) := by
  unfold jsonParseStage
  split_ifs with h1 h2 h3 <;>
    simp_all

/-- Witness for C3 amended: a text/plain Accept header is rejected with
the invalid accept header message and the body is never parsed. -/
theorem accept_header_exact_witness :
    jsonParseStage (some "text/plain") 5 true =
      (some "invalid accept header", false) :=
  (accept_header_exact (some "text/plain") 5 true).2 (by decide)

/-- C6: a POST /api/json request whose Accept header passes the accept
gate and whose raw body exceeds 720 bytes is rejected with the
invalid-body message, and the body is never parsed as JSON. -/
theorem json_body_size_cap (accept : Option String) (bodyLen : Nat)
    (bodyParses : Bool) (ha : jsString accept = "application/json")
    (hl : bodyLen > 720) :
    jsonParseStage accept bodyLen bodyParses =
      (some "invalid json body", false) := by
  simp [jsonParseStage, ha, hl]

/-- Witness for C6: an 800-byte body with a matching Accept header is
rejected as invalid before parsing. -/
theorem json_body_size_cap_witness :
    jsonParseStage (some "application/json") 800 true =
      (some "invalid json body", false) :=
  json_body_size_cap (some "application/json") 800 true rfl (by decide)

/-- C9: the caller-key derivation is deterministic, namely two requests
resolving to the same raw address under the same process secret get the
same key, and secret-separating, namely under two distinct process
secrets the same request gets two different keys. -/
theorem client_key_properties :
    (∀ (salt : String) (r₁ r₂ : Req), getIP r₁ = getIP r₂ →
      keyGenerator salt r₁ = keyGenerator salt r₂) ∧
    (∀ (s₁ s₂ : String) (r : Req), s₁ ≠ s₂ →
      keyGenerator s₁ r ≠ keyGenerator s₂ r) := by
  constructor
  · intro salt r₁ r₂ h
    simp [keyGenerator, generateHmac, h]
  · intro s₁ s₂ r hne heq
    apply hne
    have hd := congrArg String.data heq
    simp only [keyGenerator, generateHmac, String.data_append] at hd
    have hd2 := List.append_cancel_right hd
    have hd3 := List.append_cancel_right hd2
    exact String.ext hd3

/-- Witness for C9: the same address gives the same key under one
secret, and different keys under two different secrets. -/
theorem client_key_properties_witness :
    keyGenerator "saltA" ⟨"1.2.3.4"⟩ = keyGenerator "saltA" ⟨"1.2.3.4"⟩ ∧
    keyGenerator "saltA" ⟨"1.2.3.4"⟩ ≠ keyGenerator "saltB" ⟨"1.2.3.4"⟩ :=
  ⟨client_key_properties.1 "saltA" ⟨"1.2.3.4"⟩ ⟨"1.2.3.4"⟩ rfl,
    client_key_properties.2 "saltA" "saltB" ⟨"1.2.3.4"⟩ (by decide)⟩

theorem bucketRun_in_window (cfg : LimiterConfig) (t0 c : Nat)
    (ts : List Nat) (hw : ∀ t ∈ ts, t - t0 < cfg.windowMs) :
    (bucketRun cfg (some (t0, c)) ts).2 =
      (List.range ts.length).map (fun i => decide (c + i + 1 ≤ cfg.max)) := by
  induction ts generalizing c with
  | nil => simp [bucketRun]
  | cons t ts ih =>
    have ht : t - t0 < cfg.windowMs := hw t (by simp)
    have hw2 : ∀ u ∈ ts, u - t0 < cfg.windowMs := fun u hu =>
      hw u (by simp [hu])
    have htl := ih (c + 1) hw2
    simp only [bucketRun, bucketHit, if_pos ht, htl, List.length_cons,
      List.range_succ_eq_map, List.map_cons, List.map_map]
    rw [show c + 0 + 1 = c + 1 from by omega]
    refine congrArg (List.cons _) ?_
    apply List.map_congr_left
    intro i _
    simp only [Function.comp_apply]
    rw [show c + (i + 1) + 1 = c + 1 + i + 1 from by omega]

theorem bucketRun_none (cfg : LimiterConfig) (t0 : Nat) (rest : List Nat)
    (hw : ∀ t ∈ rest, t - t0 < cfg.windowMs) (hmax : 1 ≤ cfg.max) :
    (bucketRun cfg none (t0 :: rest)).2 =
      true :: (List.range rest.length).map
        (fun i => decide (1 + i + 1 ≤ cfg.max)) := by
  simp [bucketRun, bucketHit, bucketRun_in_window cfg t0 1 rest hw,
    decide_eq_true_eq, hmax]

/-- C5: within one 60-second window, a single caller key on the
extraction route gets its first 20 requests through to the handler and
a 429 with the structured rate-limit body on the 21st, which never
reaches the handler; on the stream route the first 25 get through and
the 26th gets a bare 429; and a hit on either limiter leaves the other
limiter's bucket untouched. -/
theorem rate_limiter_window (handler : Response) (t0 : Nat)
    (restJ restS : List Nat) (g : GatewayLimiters) (t : Nat)
    (hlenJ : restJ.length = 20) (hwJ : ∀ u ∈ restJ, u - t0 < 60000)
    (hlenS : restS.length = 25) (hwS : ∀ u ∈ restS, u - t0 < 60000) :
    runLimitedRoute apiLimiterCfg apiLimiterRejection handler none
        (t0 :: restJ) =
      List.replicate 20 (handler, true) ++ [(apiLimiterRejection, false)] ∧
    runLimitedRoute apiLimiterStreamCfg apiLimiterStreamRejection handler none
        (t0 :: restS) =
      List.replicate 25 (handler, true) ++
        [(apiLimiterStreamRejection, false)] ∧
    (gatewayHitStream g t).1.json = g.json ∧
    (gatewayHitJson g t).1.stream = g.stream := by
  refine ⟨?_, ?_, rfl, rfl⟩
  · unfold runLimitedRoute
    rw [bucketRun_none apiLimiterCfg t0 restJ hwJ (by decide), hlenJ]
    have hconc : (List.range 20).map
        (fun i => decide (1 + i + 1 ≤ apiLimiterCfg.max)) =
        List.replicate 19 true ++ [false] := by decide
    rw [hconc]
    simp [List.replicate_succ]
  · unfold runLimitedRoute
    rw [bucketRun_none apiLimiterStreamCfg t0 restS hwS (by decide), hlenS]
    have hconc : (List.range 25).map
        (fun i => decide (1 + i + 1 ≤ apiLimiterStreamCfg.max)) =
        List.replicate 24 true ++ [false] := by decide
    rw [hconc]
    simp [List.replicate_succ]

/-- Witness for C5: twenty-one simultaneous requests on the extraction
route and twenty-six on the stream route, from one caller key. -/
theorem rate_limiter_window_witness :
    runLimitedRoute apiLimiterCfg apiLimiterRejection
        (Response.sendStatus 200) none (0 :: List.replicate 20 0) =
      List.replicate 20 (Response.sendStatus 200, true) ++
        [(apiLimiterRejection, false)] ∧
    runLimitedRoute apiLimiterStreamCfg apiLimiterStreamRejection
        (Response.sendStatus 200) none (0 :: List.replicate 25 0) =
      List.replicate 25 (Response.sendStatus 200, true) ++
        [(apiLimiterStreamRejection, false)] ∧
    (gatewayHitStream ⟨none, none⟩ 0).1.json = (none : Option (Nat × Nat)) ∧
    (gatewayHitJson ⟨none, none⟩ 0).1.stream = (none : Option (Nat × Nat)) :=
  rate_limiter_window (Response.sendStatus 200) 0 (List.replicate 20 0)
    (List.replicate 25 0) ⟨none, none⟩ 0 (by decide) (by decide)
    (by decide) (by decide)

end Cobalt
